import Mathlib

/-!
Verification of the loader hook `hooks/tk-photoshopcc_actions.py`.

The Python source is shallowly embedded below.  Strings are processed as
lists of `Char` (Python `str` indexing is by code point, so `List Char`
is the faithful model; `\d` in the frame regex is modelled as the ASCII
digits, which is the only case exercised by file names here).  The host
application (Photoshop), the Qt dialog layer and the filesystem are
modelled by an explicit environment `Env`; calls into the host are
recorded as a trace of `HostCall` values, and Python exceptions are
modelled with `Except`.
-/

/-- The module-level constant `_ADD_AS_A_LAYER = "add_as_a_layer"`. -/
def _ADD_AS_A_LAYER : String := "add_as_a_layer"

/-- The module-level constant `_OPEN_FILE = "open_file"`. -/
def _OPEN_FILE : String := "open_file"

/-- Characters accepted by the separator group `([._-])` of `FRAME_REGEX`. -/
def isSep (c : Char) : Bool := c == '.' || c == '_' || c == '-'

/-- Split a character list at its LAST `'.'`: returns the characters before
it and the characters after it.  `none` when there is no `'.'`.  This models
the `\.([^.]+)$` tail of `FRAME_REGEX`: the extension group cannot contain a
dot, so the regex necessarily splits at the last dot of the filename. -/
def splitLastDot : List Char → Option (List Char × List Char)
  | [] => none
  | c :: rest =>
    match splitLastDot rest with
    | some (b, a) => some (c :: b, a)
    | none => if c == '.' then some ([], rest) else none

/-- Split the part of the filename before the last dot as
`(.*)([._-])(\d+)`: the digit group is the maximal run of trailing digits
(it must end exactly at the dot), and greediness of `(.*)` forces the
separator to be the single character right before that run.  Returns
`(group1, group2, group3)` of the regex, or `none` when the run of digits is
empty or the character before it is not a separator. -/
def splitSepDigits (before : List Char) : Option (List Char × Char × List Char) :=
  let rev := before.reverse
  let ds := rev.takeWhile Char.isDigit
  match rev.dropWhile Char.isDigit with
  | [] => none
  | c :: rest =>
    if ds.isEmpty then none
    else if isSep c then some (rest.reverse, c, ds.reverse) else none

/-- Result of a successful `FRAME_REGEX` search: the four capture groups
`prefix`, `frame_sep`, `frame_str` and `extension` of
`re.compile(r"(.*)([._-])(\d+)\.([^.]+)$", re.IGNORECASE)`. -/
structure FrameMatch where
  pfx : String
  sep : Char
  frameStr : String
  extension : String
deriving DecidableEq

/-- `re.search(FRAME_REGEX, filename)`.  Because the pattern starts with a
greedy `(.*)` and ends with `$`, a match exists somewhere in the string iff
one exists from position 0, so `search` behaves like an anchored match. -/
def frameRegexMatch (filename : String) : Option FrameMatch :=
  match splitLastDot filename.toList with
  | none => none
  | some (before, after) =>
    if after.isEmpty then none
    else
      match splitSepDigits before with
      | none => none
      | some (p, c, ds) => some ⟨String.mk p, c, String.mk ds, String.mk after⟩

/-- The Python expression `"%%0%dd" % (padding,)`: builds the format spec
string, e.g. `"%04d"` for padding 4. -/
def frameSpecFor (padding : Nat) : String := "%0" ++ toString padding ++ "d"

/-- The Python test `extensions and extension not in extensions` guarding the
`continue` that skips unlisted extensions (`None` and `[]` are both falsy). -/
def extSkip (extensions : Option (List String)) (ext : String) : Bool :=
  match extensions with
  | none => false
  | some exts => !exts.isEmpty && !(exts.contains ext)

/-- One value of the `processed_names` dict: `sequence_path` and
`frame_list`. -/
structure SeqInfo where
  sequence_path : String
  frame_list : List String
deriving DecidableEq

/-- `processed_names[file_no_frame]["frame_list"].append(frame_str)`: the
dict entry keeps its position and its `sequence_path`; only its
`frame_list` grows at the end. -/
def updateAppend (l : List (String × SeqInfo)) (key fs : String) :
    List (String × SeqInfo) :=
  l.map (fun pr => if pr.1 == key then (pr.1, ⟨pr.2.sequence_path, pr.2.frame_list ++ [fs]⟩) else pr)

/-- `os.path.join(folder, name)` on a POSIX system, for the cases arising
here (plain file names joined onto a folder). -/
def pathJoin (folder name : String) : String :=
  if name.toList.head? == some '/' then name
  else if folder == "" then name
  else if folder.toList.getLast? == some '/' then folder ++ name
  else folder ++ "/" ++ name

/-- One iteration of the `for filename in os.listdir(folder)` loop of
`__get_frame_sequences`.  The state is the `processed_names` dict (an
insertion-ordered association list, as for a Python dict) together with the
`frame_spec` local variable (`""` plays the role of the falsy `None`).
A directory entry is a `(filename, isdir)` pair; `os.path.isdir` is read
from the flag. -/
def processEntry (extensions : Option (List String)) (folder : String)
    (st : List (String × SeqInfo) × String) (entry : String × Bool) :
    List (String × SeqInfo) × String :=
  if entry.2 then st
  else
    match frameRegexMatch entry.1 with
    | none => st
    | some m =>
      let file_no_frame := m.pfx ++ "." ++ m.extension
      if (st.1.lookup file_no_frame).isSome then
        (updateAppend st.1 file_no_frame m.frameStr, st.2)
      else if extSkip extensions m.extension then st
      else
        let fspec := if st.2 == "" then frameSpecFor m.frameStr.length else st.2
        let seq_filename := m.pfx ++ String.mk [m.sep] ++ fspec
        let seq_filename2 :=
          if m.extension == "" then seq_filename else seq_filename ++ "." ++ m.extension
        (st.1 ++ [(file_no_frame, ⟨pathJoin folder seq_filename2, [m.frameStr]⟩)], fspec)

/-- `PhotoshopActions.__get_frame_sequences`.  `entries` is the listing
`os.listdir(folder)` together with the `os.path.isdir` flag of each entry;
`frame_spec = ""` models the default `frame_spec=None`.  Returns the list of
`(sequence_path, frame_list)` tuples in dict insertion order. -/
def get_frame_sequences (folder : String) (entries : List (String × Bool))
    (extensions : Option (List String)) (frame_spec : String) :
    List (String × List String) :=
  ((entries.foldl (processEntry extensions folder) ([], frame_spec)).1).map
    (fun pr => (pr.2.sequence_path, pr.2.frame_list))

/-- Numeric value of a list of decimal digit characters. -/
def digitsVal (cs : List Char) : Nat :=
  cs.foldl (fun a c => a * 10 + (c.toNat - '0'.toNat)) 0

/-- Python `int(s)` for the strings arising here: a non-empty run of ASCII
digits parses to its value, anything else raises (returns `none`). -/
def pyInt? (s : String) : Option Nat :=
  if s.toList.isEmpty then none
  else if s.toList.all Char.isDigit then some (digitsVal s.toList) else none

/-- Python `<` on strings: lexicographic comparison by code point. -/
def lexLt : List Char → List Char → Bool
  | [], [] => false
  | [], _ :: _ => true
  | _ :: _, [] => false
  | x :: xs, y :: ys => if x < y then true else if y < x then false else lexLt xs ys

/-- Python `min` over a list of strings: the first lexicographically
smallest element; `none` on an empty list (Python raises `ValueError`). -/
def pyMinString : List String → Option String
  | [] => none
  | x :: xs => some (xs.foldl (fun a b => if lexLt b.toList a.toList then b else a) x)

/-- Scan for the first `%` conversion of a format string and parse it as an
integer conversion `%[0][width]d`: returns the characters before it, the
zero-pad flag, the width digits and the characters after it.  Any other
conversion (or a trailing lone `%`) is rejected, as Python raises for it. -/
def pyFormatScan : List Char → Option (List Char × Bool × List Char × List Char)
  | [] => none
  | '%' :: rest =>
    let zr : Bool × List Char :=
      match rest with
      | '0' :: r => (true, r)
      | _ => (false, rest)
    match zr.2.dropWhile Char.isDigit with
    | 'd' :: after => some ([], zr.1, zr.2.takeWhile Char.isDigit, after)
    | _ => none
  | c :: rest =>
    match pyFormatScan rest with
    | none => none
    | some (b, z, w, a) => some (c :: b, z, w, a)

/-- Python `s % n` for a natural number `n`: substitutes the single integer
conversion found in `s`.  `none` models the exceptions Python raises when
there is no conversion, an unsupported one, or more than one (a further `%`
after the first conversion means not all arguments would be converted). -/
def pyFormatInt (s : String) (n : Nat) : Option String :=
  match pyFormatScan s.toList with
  | none => none
  | some (before, zf, ws, after) =>
    if after.contains '%' then none
    else
      let w := digitsVal ws
      let digits := (toString n).toList
      let padded :=
        if digits.length ≥ w then digits
        else List.replicate (w - digits.length) (if zf then '0' else ' ') ++ digits
      some (String.mk (before ++ padded ++ after))

/-- Characters of `p` up to and including its last `'/'`, or `none` when
there is no slash. -/
def lastSlashSplit : List Char → Option (List Char)
  | [] => none
  | c :: rest =>
    match lastSlashSplit rest with
    | some b => some (c :: b)
    | none => if c == '/' then some [c] else none

/-- `os.path.dirname` on POSIX: everything up to the last `'/'`, with
trailing slashes stripped unless the head is made of slashes only. -/
def dirname (p : String) : String :=
  match lastSlashSplit p.toList with
  | none => ""
  | some head =>
    if head.all (fun c => c == '/') then String.mk head
    else String.mk ((head.reverse.dropWhile (fun c => c == '/')).reverse)

/-- Split a character list on `'/'` into groups (Python `path.split(sep)`). -/
def splitOnSlash : List Char → List (List Char)
  | [] => [[]]
  | c :: rest =>
    let r := splitOnSlash rest
    if c == '/' then [] :: r
    else
      match r with
      | [] => [[c]]
      | g :: gs => (c :: g) :: gs

/-- Join character groups with `'/'` (Python `"/".join(...)`). -/
def joinSlash : List (List Char) → List Char
  | [] => []
  | [g] => g
  | g :: gs => g ++ '/' :: joinSlash gs

/-- The handlers' `path = "/".join(path.split(os.path.sep))` with the POSIX
separator (`os.path.sep == "/"`). -/
def normalizeSeps (p : String) : String := String.mk (joinSlash (splitOnSlash p.toList))

/-- A Shotgun publish record.  Treated as opaque by the hook; only the file
path resolved from it is used. -/
structure PublishData where
  path : String
deriving DecidableEq

/-- Modelled from the spec: `get_publish_path` is supplied by the loader
framework (it is not part of this repository); per the spec ("only a `path`
field is read"), it resolves the publish record to its file path.
`six.ensure_text` is the identity on our already-decoded strings. -/
def get_publish_path (pub : PublishData) : String := pub.path

/-- The world outside the hook: which paths exist on disk
(`os.path.exists`), each folder's listing with `isdir` flags
(`os.listdir` / `os.path.isdir`), and whether the host application has an
active document (`adobe.app.activeDocument` raises when it does not). -/
structure Env where
  fsExists : List String
  dirEntries : String → List (String × Bool)
  hasActiveDocument : Bool

/-- Python exceptions that can escape `execute_action`:
`IndexError` from `frame_sequences[0]` on an empty list, `ValueError` from
`min`/`int`, the errors `path % first_frame` can raise, and the explicit
`Exception("File not found on disk - '<path>'")`. -/
inductive ExecErr where
  | indexError : ExecErr
  | valueError : ExecErr
  | formatError : ExecErr
  | fileNotFound : String → ExecErr
deriving DecidableEq

/-- Observable calls into the host application and the UI layer:
`adobe.app.load(File(path))`, the `QtGui.QMessageBox.warning` dialog, and
the `executeAction(Plc, ...)` place command on the active document. -/
inductive HostCall where
  | openFile : String → HostCall
  | warnDialog : String → String → HostCall
  | placeFile : String → HostCall
deriving DecidableEq

/-- Lines 151-165 of `execute_action`: resolve the publish path; when it
contains `%`, run sequence discovery on its directory, take
`frame_sequences[0]`, compute `first_frame = int(min(frame_sequence[1]))`
and substitute it into the path. -/
def resolvePath (env : Env) (pub : PublishData) : Except ExecErr String :=
  let path := get_publish_path pub
  if path.toList.contains '%' then
    let folder := dirname path
    match get_frame_sequences folder (env.dirEntries folder) none "" with
    | [] => Except.error ExecErr.indexError
    | fs :: _ =>
      match pyMinString fs.2 with
      | none => Except.error ExecErr.valueError
      | some m =>
        match pyInt? m with
        | none => Except.error ExecErr.valueError
        | some n =>
          match pyFormatInt path n with
          | none => Except.error ExecErr.formatError
          | some p => Except.ok p
  else Except.ok path

/-- `PhotoshopActions._open_file`: normalize separators and load the file
in the host. -/
def _open_file (path : String) : List HostCall :=
  [HostCall.openFile (normalizeSeps path)]

/-- `PhotoshopActions._place_file`: normalize separators; if reading
`adobe.app.activeDocument` raises (no open document), show the warning
dialog and return without placing; otherwise execute the place command. -/
def _place_file (env : Env) (path : String) : List HostCall :=
  let p := normalizeSeps path
  if env.hasActiveDocument then [HostCall.placeFile p]
  else [HostCall.warnDialog "Add To Layer" "Please open a document first."]

/-- `PhotoshopActions.execute_action`: resolve the path, raise when it does
not exist on disk (`if not os.path.exists(path): raise ...`), then run the
two independent `if name == ...` dispatch tests.  Returns the trace of host
calls together with the normal/exceptional outcome. -/
def execute_action (env : Env) (name : String) (params : Option String)
    (sg_publish_data : PublishData) : List HostCall × Except ExecErr Unit :=
  match resolvePath env sg_publish_data with
  | Except.error e => ([], Except.error e)
  | Except.ok path =>
    if env.fsExists.contains path then
      ((if name == _OPEN_FILE then _open_file path else []) ++
        (if name == _ADD_AS_A_LAYER then _place_file env path else []),
        Except.ok ())
    else ([], Except.error (ExecErr.fileNotFound path))

/-- One entry of the `actions` list of `execute_multiple_actions`. -/
structure ActionInvocation where
  name : String
  sg_publish_data : PublishData
  params : Option String
deriving DecidableEq

/-- `PhotoshopActions.execute_multiple_actions`: dispatch each entry to
`execute_action`; an exception propagates out of the `for` loop, so the
remaining entries are not executed. -/
def execute_multiple_actions (env : Env) :
    List ActionInvocation → List HostCall × Except ExecErr Unit
  | [] => ([], Except.ok ())
  | a :: rest =>
    match execute_action env a.name a.params a.sg_publish_data with
    | (calls, Except.error e) => (calls, Except.error e)
    | (calls, Except.ok _) =>
      let r := execute_multiple_actions env rest
      (calls ++ r.1, r.2)

/-- An action descriptor dictionary with its `name`, `params`, `caption`
and `description` keys. -/
structure ActionDesc where
  name : String
  params : Option String
  caption : String
  description : String
deriving DecidableEq

/-- The descriptor appended for `_ADD_AS_A_LAYER`. -/
def addLayerDesc : ActionDesc :=
  ⟨_ADD_AS_A_LAYER, none, "Add as a Layer",
    "Adds a layer referencing the image to the current document."⟩

/-- The descriptor appended for `_OPEN_FILE`. -/
def openFileDesc : ActionDesc :=
  ⟨_OPEN_FILE, none, "Open File", "This will open the file."⟩

/-- `PhotoshopActions.generate_actions`: appends the add-as-a-layer
descriptor when `_ADD_AS_A_LAYER in actions`, then the open-file descriptor
when `_OPEN_FILE in actions`.  The publish data and UI area are only
logged. -/
def generate_actions (sg_publish_data : PublishData) (actions : List String)
    (ui_area : String) : List ActionDesc :=
  (if _ADD_AS_A_LAYER ∈ actions then [addLayerDesc] else []) ++
  (if _OPEN_FILE ∈ actions then [openFileDesc] else [])

/-! ## Claim theorems -/

/-- C1: for every requested-action list and every publish-data input,
`generate_actions` returns exactly one descriptor for each known name
(`add_as_a_layer`, `open_file`) that appears in the requested list — with
the fixed caption and description text — and returns no descriptor for any
other name. -/
theorem C1_generate_actions_known_names (pub : PublishData) (actions : List String)
    (ui_area : String) :
    ((generate_actions pub actions ui_area).filter
        (fun d => d.name == _ADD_AS_A_LAYER)).length =
      (if _ADD_AS_A_LAYER ∈ actions then 1 else 0) ∧
    ((generate_actions pub actions ui_area).filter
        (fun d => d.name == _OPEN_FILE)).length =
      (if _OPEN_FILE ∈ actions then 1 else 0) ∧
    ∀ d ∈ generate_actions pub actions ui_area,
      (d.name = _ADD_AS_A_LAYER ∧ d.caption = "Add as a Layer" ∧
        d.description = "Adds a layer referencing the image to the current document.") ∨
      (d.name = _OPEN_FILE ∧ d.caption = "Open File" ∧
        d.description = "This will open the file.") := by
  by_cases h1 : _ADD_AS_A_LAYER ∈ actions <;> by_cases h2 : _OPEN_FILE ∈ actions <;>
    simp [generate_actions, h1, h2] <;> decide

/-- C1 witness: concrete evaluation on a list containing one known and one
unknown name. -/
theorem C1_generate_actions_known_names_witness :
    ((generate_actions ⟨"/proj/img.psd"⟩ ["open_file", "foo", "add_as_a_layer"] "main").filter
        (fun d => d.name == _ADD_AS_A_LAYER)).length =
      (if _ADD_AS_A_LAYER ∈ ["open_file", "foo", "add_as_a_layer"] then 1 else 0) :=
  (C1_generate_actions_known_names ⟨"/proj/img.psd"⟩
    ["open_file", "foo", "add_as_a_layer"] "main").1

/-- C10: every descriptor returned by `generate_actions` has `params = none`,
and when both known names are requested the add-as-a-layer descriptor
precedes the open-file descriptor, whatever the order of the requested
names. -/
theorem C10_params_none_and_order (pub : PublishData) (actions : List String)
    (ui_area : String) :
    (∀ d ∈ generate_actions pub actions ui_area, d.params = none) ∧
    (_ADD_AS_A_LAYER ∈ actions → _OPEN_FILE ∈ actions →
      generate_actions pub actions ui_area = [addLayerDesc, openFileDesc]) := by
  constructor
  · by_cases h1 : _ADD_AS_A_LAYER ∈ actions <;> by_cases h2 : _OPEN_FILE ∈ actions <;>
      simp [generate_actions, h1, h2] <;> decide
  · intro h1 h2
    simp [generate_actions, h1, h2]

/-- C10 witness: both names requested in the opposite order still yield the
add-as-a-layer descriptor first. -/
theorem C10_params_none_and_order_witness :
    generate_actions ⟨"/proj/img.psd"⟩ ["open_file", "add_as_a_layer"] "main" =
      [addLayerDesc, openFileDesc] :=
  (C10_params_none_and_order ⟨"/proj/img.psd"⟩ ["open_file", "add_as_a_layer"] "main").2
    (by decide) (by decide)

/-- C4: when the resolved path does not exist on disk, `execute_action`
raises the file-not-found failure and makes no host call at all, for every
action name: the existence check runs before any dispatch to a handler. -/
theorem C4_missing_file_no_host_call (env : Env) (name : String) (params : Option String)
    (pub : PublishData) (p : String)
    (hres : resolvePath env pub = Except.ok p)
    (hmiss : env.fsExists.contains p = false) :
    execute_action env name params pub = ([], Except.error (ExecErr.fileNotFound p)) := by
  simp at hmiss
  simp [execute_action, hres, hmiss]

/-- Environment for the C4 witness: nothing exists on disk. -/
def missEnv : Env := ⟨[], fun _ => [], true⟩

/-- C4 witness: a publish whose path is absent from disk fails with no host
call even for the open-file action. -/
theorem C4_missing_file_no_host_call_witness :
    execute_action missEnv "open_file" none ⟨"/proj/img.psd"⟩ =
      ([], Except.error (ExecErr.fileNotFound "/proj/img.psd")) :=
  C4_missing_file_no_host_call missEnv "open_file" none ⟨"/proj/img.psd"⟩ "/proj/img.psd"
    (by rfl) (by rfl)

/-- C7: a place-as-layer invocation with no active host document shows the
warning dialog and returns normally, with no place command executed. -/
theorem C7_place_no_document_warns (env : Env) (params : Option String)
    (pub : PublishData) (p : String)
    (hres : resolvePath env pub = Except.ok p)
    (hex : env.fsExists.contains p = true)
    (hdoc : env.hasActiveDocument = false) :
    execute_action env _ADD_AS_A_LAYER params pub =
      ([HostCall.warnDialog "Add To Layer" "Please open a document first."],
        Except.ok ()) := by
  simp at hex
  simp [execute_action, hres, hex, _place_file, hdoc, _ADD_AS_A_LAYER, _OPEN_FILE]

/-- Environment for the C7 witness: the file exists but no document is
open in the host. -/
def noDocEnv : Env := ⟨["/proj/img.psd"], fun _ => [], false⟩

/-- C7 witness: placing with no open document only shows the dialog. -/
theorem C7_place_no_document_warns_witness :
    execute_action noDocEnv _ADD_AS_A_LAYER none ⟨"/proj/img.psd"⟩ =
      ([HostCall.warnDialog "Add To Layer" "Please open a document first."],
        Except.ok ()) :=
  C7_place_no_document_warns noDocEnv none ⟨"/proj/img.psd"⟩ "/proj/img.psd"
    (by rfl) (by rfl) (by rfl)

/-- C8: a publish path with a frame placeholder whose directory yields an
empty sequence-discovery result makes `execute_action` fail with the
unguarded indexing error (`frame_sequences[0]` on an empty list), for every
action name. -/
theorem C8_empty_discovery_index_error (env : Env) (name : String) (params : Option String)
    (pub : PublishData)
    (hp : (get_publish_path pub).toList.contains '%' = true)
    (hempty : get_frame_sequences (dirname (get_publish_path pub))
        (env.dirEntries (dirname (get_publish_path pub))) none "" = []) :
    execute_action env name params pub = ([], Except.error ExecErr.indexError) := by
  have hres : resolvePath env pub = Except.error ExecErr.indexError := by
    simp at hp
    simp [resolvePath, hp, hempty]
  simp [execute_action, hres]

/-- Environment for the C8 witness: the folder holds no frame-numbered
file. -/
def noSeqEnv : Env := ⟨[], fun _ => [("readme.txt", false)], true⟩

/-- C8 witness: a `%04d` publish path over a folder with no matching
sequence crashes with the indexing error. -/
theorem C8_empty_discovery_index_error_witness :
    execute_action noSeqEnv "open_file" none ⟨"/seq/shot.%04d.exr"⟩ =
      ([], Except.error ExecErr.indexError) :=
  C8_empty_discovery_index_error noSeqEnv "open_file" none ⟨"/seq/shot.%04d.exr"⟩
    (by decide) (by decide)

/-- C9: an action name other than `open_file` and `add_as_a_layer` triggers
no dispatch: when path resolution and the existence check pass, the call
returns normally with no host call and no error. -/
theorem C9_unknown_name_ignored (env : Env) (name : String) (params : Option String)
    (pub : PublishData) (p : String)
    (h1 : name ≠ _OPEN_FILE) (h2 : name ≠ _ADD_AS_A_LAYER)
    (hres : resolvePath env pub = Except.ok p)
    (hex : env.fsExists.contains p = true) :
    execute_action env name params pub = ([], Except.ok ()) := by
  simp at hex
  simp [execute_action, hres, hex, h1, h2]

/-- C9 witness: the unknown name `"foo"` is silently ignored. -/
theorem C9_unknown_name_ignored_witness :
    execute_action noDocEnv "foo" none ⟨"/proj/img.psd"⟩ = ([], Except.ok ()) :=
  C9_unknown_name_ignored noDocEnv "foo" none ⟨"/proj/img.psd"⟩ "/proj/img.psd"
    (by decide) (by decide) (by rfl) (by rfl)

/-- C2: when the invocations before `a` all succeed and `a` raises, the
whole outcome of `execute_multiple_actions` — host-call trace and result —
is the same whatever follows `a`: the invocations after the first failure
are never executed. -/
theorem C2_batch_stops_at_first_failure (env : Env) (pre : List ActionInvocation)
    (a : ActionInvocation) (suf : List ActionInvocation) (e : ExecErr)
    (hpre : ∀ x ∈ pre, (execute_action env x.name x.params x.sg_publish_data).2 =
      Except.ok ())
    (ha : (execute_action env a.name a.params a.sg_publish_data).2 = Except.error e) :
    execute_multiple_actions env (pre ++ a :: suf) =
      execute_multiple_actions env (pre ++ [a]) := by
  induction pre with
  | nil =>
    simp only [List.nil_append]
    rcases hc : execute_action env a.name a.params a.sg_publish_data with ⟨calls, r⟩
    rw [hc] at ha
    simp only at ha
    subst ha
    simp [execute_multiple_actions, hc]
  | cons x pre ih =>
    have hx := hpre x (List.mem_cons_self x pre)
    have hrest : ∀ y ∈ pre, (execute_action env y.name y.params y.sg_publish_data).2 =
        Except.ok () := fun y hy => hpre y (List.mem_cons_of_mem x hy)
    rcases hc : execute_action env x.name x.params x.sg_publish_data with ⟨calls, r⟩
    rw [hc] at hx
    simp only at hx
    subst hx
    simp only [List.cons_append]
    simp [execute_multiple_actions, hc, ih hrest]

/-- Environment for the C2 witness: one good file, nothing else. -/
def batchEnv : Env := ⟨["/proj/ok.psd"], fun _ => [], true⟩

/-- C2 witness: a three-entry batch whose second entry fails is
indistinguishable from the two-entry batch without the trailing entry. -/
theorem C2_batch_stops_at_first_failure_witness :
    execute_multiple_actions batchEnv
      [⟨"open_file", ⟨"/proj/ok.psd"⟩, none⟩, ⟨"open_file", ⟨"/proj/missing.psd"⟩, none⟩,
        ⟨"open_file", ⟨"/proj/ok.psd"⟩, none⟩] =
      execute_multiple_actions batchEnv
        [⟨"open_file", ⟨"/proj/ok.psd"⟩, none⟩,
          ⟨"open_file", ⟨"/proj/missing.psd"⟩, none⟩] :=
  C2_batch_stops_at_first_failure batchEnv [⟨"open_file", ⟨"/proj/ok.psd"⟩, none⟩]
    ⟨"open_file", ⟨"/proj/missing.psd"⟩, none⟩ [⟨"open_file", ⟨"/proj/ok.psd"⟩, none⟩]
    (ExecErr.fileNotFound "/proj/missing.psd")
    (by intro x hx; simp at hx; subst hx; rfl)
    (by rfl)

/-- Folder listing for the C3 counterexample: one sequence whose frame
strings have different widths, `shot.99.exr` and `shot.100.exr`. -/
def seqDirListing : List (String × Bool) := [("shot.99.exr", false), ("shot.100.exr", false)]

/-- Environment for C3: both frame files exist on disk. -/
def seqEnv : Env :=
  ⟨["/seq/shot.99.exr", "/seq/shot.100.exr"], fun _ => seqDirListing, true⟩

/-- C3 counterexample: the code computes `int(min(frame_list))` where `min`
compares Python strings lexicographically, so for the on-disk frames
99 and 100 it picks `"100"` (`'1' < '9'`) and `execute_action` opens
`/seq/shot.100.exr` — even though frame 99 exists on disk (its file is in
`fsExists` and is exactly what the placeholder yields at 99), so the
numerically smallest existing frame is 99, not 100. -/
theorem C3_counterexample :
    execute_action seqEnv "open_file" none ⟨"/seq/shot.%d.exr"⟩ =
      ([HostCall.openFile "/seq/shot.100.exr"], Except.ok ()) ∧
    "/seq/shot.99.exr" ∈ seqEnv.fsExists ∧
    pyFormatInt "/seq/shot.%d.exr" 99 = some "/seq/shot.99.exr" ∧
    (99 : Nat) < 100 :=
  ⟨rfl, by decide, by decide, by decide⟩

/-- C3 amended: for a publish path containing a frame placeholder, the code
substitutes the integer value of the LEXICOGRAPHICALLY smallest
frame-number string of the FIRST discovered sequence group of the
directory (`frame_sequences[0]`), whether or not that group matches the
publish path and whether or not that value is the numerically smallest
frame. -/
theorem C3_amended_first_group_lex_min (env : Env) (pub : PublishData)
    (seq : String × List String) (rest : List (String × List String))
    (m : String) (n : Nat) (p : String)
    (hp : (get_publish_path pub).toList.contains '%' = true)
    (hseq : get_frame_sequences (dirname (get_publish_path pub))
        (env.dirEntries (dirname (get_publish_path pub))) none "" = seq :: rest)
    (hm : pyMinString seq.2 = some m)
    (hn : pyInt? m = some n)
    (hf : pyFormatInt (get_publish_path pub) n = some p) :
    resolvePath env pub = Except.ok p := by
  simp at hp
  simp [resolvePath, hp, hseq, hm, hn, hf]

/-- C3 amended witness: on the 99/100 sequence the lexicographic minimum is
`"100"`, and resolution yields frame 100. -/
theorem C3_amended_first_group_lex_min_witness :
    resolvePath seqEnv ⟨"/seq/shot.%d.exr"⟩ = Except.ok "/seq/shot.100.exr" :=
  C3_amended_first_group_lex_min seqEnv ⟨"/seq/shot.%d.exr"⟩
    ("/seq/shot.%02d.exr", ["99", "100"]) [] "100" 100 "/seq/shot.100.exr"
    (by decide) (by decide) (by decide) (by decide) (by decide)

/-- A successful `FRAME_REGEX` match always has a non-empty extension
(the `[^.]+` group). -/
theorem frameRegexMatch_ext_ne (f : String) (m : FrameMatch)
    (h : frameRegexMatch f = some m) : ¬(m.extension = "") := by
  intro hext
  unfold frameRegexMatch at h
  rcases hs : splitLastDot f.toList with - | ⟨before, after⟩ <;> rw [hs] at h
  · exact Option.noConfusion h
  · dsimp only at h
    by_cases ha : after.isEmpty
    · rw [if_pos ha] at h
      exact Option.noConfusion h
    · rw [if_neg ha] at h
      rcases hd : splitSepDigits before with - | ⟨p, c, ds⟩ <;> rw [hd] at h <;> dsimp only at h
      · exact Option.noConfusion h
      · injection h with h2
        subst h2
        have hnil : after = [] := congrArg String.toList hext
        rw [hnil] at ha
        simp at ha

/-- The `sequence_path` built for a new group from match `m` when the
frame spec in force is `s`. -/
def seqTemplate (folder s : String) (m : FrameMatch) : String :=
  pathJoin folder (m.pfx ++ String.mk [m.sep] ++ s ++ "." ++ m.extension)

/-- The computed frame spec `"%0<w>d"` is never the empty string. -/
theorem frameSpecFor_ne_empty (w : Nat) : ¬(frameSpecFor w = "") := by
  intro h
  have h2 := congrArg String.length h
  simp [frameSpecFor, String.length_append] at h2
  exact absurd h2.1.1 (by decide)

/-- Appending a frame number to a group leaves every `sequence_path`
untouched. -/
theorem updateAppend_paths (l : List (String × SeqInfo)) (key f : String) :
    (updateAppend l key f).map (fun q => q.2.sequence_path) =
      l.map (fun q => q.2.sequence_path) := by
  unfold updateAppend
  rw [List.map_map]
  apply List.map_congr_left
  intro a ha
  by_cases h : a.1 = key <;> simp [h]

/-- Case analysis of one loop iteration when the frame spec is already set:
the spec is returned unchanged, and the dict is either unchanged, updated
in place, or extended with one group whose template embeds that same
spec. -/
theorem processEntry_spec (extensions : Option (List String)) (folder : String)
    (processed : List (String × SeqInfo)) (s : String) (hs : ¬(s = ""))
    (entry : String × Bool) :
    (processEntry extensions folder (processed, s) entry).2 = s ∧
    ((processEntry extensions folder (processed, s) entry).1 = processed ∨
      (∃ key f, (processEntry extensions folder (processed, s) entry).1 =
        updateAppend processed key f) ∨
      (∃ m : FrameMatch, (processEntry extensions folder (processed, s) entry).1 =
        processed ++ [(m.pfx ++ "." ++ m.extension,
          ⟨seqTemplate folder s m, [m.frameStr]⟩)])) := by
  unfold processEntry
  split
  · exact ⟨rfl, Or.inl rfl⟩
  split
  · exact ⟨rfl, Or.inl rfl⟩
  next m hm =>
    dsimp only
    split
    · exact ⟨rfl, Or.inr (Or.inl ⟨m.pfx ++ "." ++ m.extension, m.frameStr, rfl⟩)⟩
    split
    · exact ⟨rfl, Or.inl rfl⟩
    have hext := frameRegexMatch_ext_ne entry.1 m hm
    have hs2 : (s == "") = false := by simp [hs]
    have hx2 : (m.extension == "") = false := by simp [hext]
    refine ⟨?_, Or.inr (Or.inr ⟨m, ?_⟩)⟩ <;> simp [hs2, hx2, seqTemplate]

/-- Fold invariant: starting from any dict with a set frame spec `s`, the
spec never changes, and every group of the final dict either was already
present or has a template built with `s`. -/
theorem foldl_processEntry_spec (extensions : Option (List String)) (folder s : String)
    (hs : ¬(s = "")) (entries : List (String × Bool)) :
    ∀ processed : List (String × SeqInfo),
      (entries.foldl (processEntry extensions folder) (processed, s)).2 = s ∧
      ∀ pr ∈ (entries.foldl (processEntry extensions folder) (processed, s)).1,
        pr.2.sequence_path ∈ processed.map (fun q => q.2.sequence_path) ∨
        ∃ m : FrameMatch, pr.2.sequence_path = seqTemplate folder s m := by
  induction entries with
  | nil =>
    intro processed
    refine ⟨rfl, ?_⟩
    intro pr hpr
    exact Or.inl (List.mem_map.mpr ⟨pr, hpr, rfl⟩)
  | cons e rest ih =>
    intro processed
    rw [List.foldl_cons]
    obtain ⟨h2, hcases⟩ := processEntry_spec extensions folder processed s hs e
    have hst : processEntry extensions folder (processed, s) e =
        ((processEntry extensions folder (processed, s) e).1, s) := by
      exact Prod.ext rfl h2
    rw [hst]
    rcases hcases with hcase | ⟨key, f, hcase⟩ | ⟨m, hcase⟩
    · rw [hcase]
      exact ih processed
    · rw [hcase]
      obtain ⟨ih2, ihmem⟩ := ih (updateAppend processed key f)
      refine ⟨ih2, ?_⟩
      intro pr hpr
      rcases ihmem pr hpr with hmem | hm
      · rw [updateAppend_paths] at hmem
        exact Or.inl hmem
      · exact Or.inr hm
    · rw [hcase]
      obtain ⟨ih2, ihmem⟩ :=
        ih (processed ++ [(m.pfx ++ "." ++ m.extension, ⟨seqTemplate folder s m, [m.frameStr]⟩)])
      refine ⟨ih2, ?_⟩
      intro pr hpr
      rcases ihmem pr hpr with hmem | hm
      · rw [List.map_append] at hmem
        rcases List.mem_append.mp hmem with hmem2 | hmem2
        · exact Or.inl hmem2
        · simp only [List.map_cons, List.map_nil, List.mem_singleton] at hmem2
          exact Or.inr ⟨m, hmem2⟩
      · exact Or.inr hm

/-- One loop iteration from the initial state (empty dict, unset spec):
either the state is unchanged, or the first group is created and the spec
is set from the width of that group's first match. -/
theorem processEntry_empty (extensions : Option (List String)) (folder : String)
    (e : String × Bool) :
    processEntry extensions folder ([], "") e = ([], "") ∨
    ∃ m : FrameMatch,
      frameRegexMatch e.1 = some m ∧
      processEntry extensions folder ([], "") e =
        ([(m.pfx ++ "." ++ m.extension,
            ⟨seqTemplate folder (frameSpecFor m.frameStr.length) m, [m.frameStr]⟩)],
          frameSpecFor m.frameStr.length) := by
  unfold processEntry
  split
  · exact Or.inl rfl
  split
  · exact Or.inl rfl
  next m hm =>
    dsimp only
    split
    · next hl => exact absurd hl (by simp)
    split
    · exact Or.inl rfl
    have hext := frameRegexMatch_ext_ne e.1 m hm
    have hx2 : (m.extension == "") = false := by simp [hext]
    refine Or.inr ⟨m, hm, ?_⟩
    simp [hx2, seqTemplate]

/-- Discovery starting with no frame spec: either no group is ever created,
or one single width `w` (the first created group's first match) determines
the spec embedded in the template of every group of the result. -/
theorem foldl_processEntry_from_empty (extensions : Option (List String)) (folder : String)
    (entries : List (String × Bool)) :
    (entries.foldl (processEntry extensions folder) ([], "")).1 = [] ∨
    ∃ w : Nat,
      ∀ pr ∈ (entries.foldl (processEntry extensions folder) ([], "")).1,
        ∃ m : FrameMatch, pr.2.sequence_path = seqTemplate folder (frameSpecFor w) m := by
  induction entries with
  | nil => exact Or.inl rfl
  | cons e rest ih =>
    rw [List.foldl_cons]
    rcases processEntry_empty extensions folder e with h | ⟨m, -, h⟩
    · rw [h]
      exact ih
    · rw [h]
      refine Or.inr ⟨m.frameStr.length, ?_⟩
      have hs := frameSpecFor_ne_empty m.frameStr.length
      obtain ⟨-, hmem⟩ := foldl_processEntry_spec extensions folder
        (frameSpecFor m.frameStr.length) hs rest
        [(m.pfx ++ "." ++ m.extension,
          ⟨seqTemplate folder (frameSpecFor m.frameStr.length) m, [m.frameStr]⟩)]
      intro pr hpr
      rcases hmem pr hpr with hmem2 | hm2
      · simp only [List.map_cons, List.map_nil, List.mem_singleton] at hmem2
        exact ⟨m, hmem2⟩
      · exact hm2

/-- C5 amended: the frame spec is computed once — from the zero-padding
width of the first match of the FIRST created group — and reused for every
other group: whenever discovery (with the default unset spec) returns any
group at all, one single width `w` builds the template of every returned
group; a group's template does not reflect its own first match's padding. -/
theorem C5_amended_shared_spec (folder : String) (extensions : Option (List String))
    (entries : List (String × Bool)) (pr : String × List String)
    (hpr : pr ∈ get_frame_sequences folder entries extensions "") :
    ∃ w : Nat, ∀ q ∈ get_frame_sequences folder entries extensions "",
      ∃ m : FrameMatch, q.1 = seqTemplate folder (frameSpecFor w) m := by
  unfold get_frame_sequences at hpr ⊢
  rcases foldl_processEntry_from_empty extensions folder entries with h | ⟨w, hmem⟩
  · rw [h] at hpr
    simp at hpr
  · refine ⟨w, ?_⟩
    intro q hq
    obtain ⟨x, hx, hqx⟩ := List.mem_map.mp hq
    obtain ⟨m, hm⟩ := hmem x hx
    refine ⟨m, ?_⟩
    rw [← hqx]
    exact hm

/-- C5 counterexample: groups `a.####.exr` (first match width 4) and
`b.##.jpg` (first match width 2) — the second group's template is built
with `%04d`, the first group's padding, not with its own `%02d`. -/
theorem C5_counterexample :
    get_frame_sequences "/seq" [("a.0001.exr", false), ("b.02.jpg", false)] none "" =
      [("/seq/a.%04d.exr", ["0001"]), ("/seq/b.%04d.jpg", ["02"])] ∧
    ¬("/seq/b.%04d.jpg" = "/seq/b.%02d.jpg") := by
  constructor <;> decide

/-- C5 amended witness: on the two-group listing a single width governs
every template. -/
theorem C5_amended_shared_spec_witness :
    ∃ w : Nat,
      ∀ q ∈ get_frame_sequences "/seq" [("a.0001.exr", false), ("b.02.jpg", false)] none "",
        ∃ m : FrameMatch, q.1 = seqTemplate "/seq" (frameSpecFor w) m :=
  C5_amended_shared_spec "/seq" none [("a.0001.exr", false), ("b.02.jpg", false)]
    ("/seq/a.%04d.exr", ["0001"]) (by decide)

/-- C6 counterexample: `shot.0001.exr` and `shot_0001.exr` differ only in
their separator, yet discovery returns ONE group (the group key
`prefix + "." + extension` drops the separator), not two. -/
theorem C6_counterexample :
    get_frame_sequences "/seq" [("shot.0001.exr", false), ("shot_0001.exr", false)] none "" =
      [("/seq/shot.%04d.exr", ["0001", "0001"])] ∧
    (get_frame_sequences "/seq"
      [("shot.0001.exr", false), ("shot_0001.exr", false)] none "").length = 1 := by
  constructor <;> decide

/-- C6 amended: two matching files with the same prefix and extension land
in the SAME group whatever their separators: the group key drops the
separator, the group's template keeps the first file's separator, and the
second file only contributes its frame number. -/
theorem C6_amended_merged_groups (folder f1 f2 : String) (m1 m2 : FrameMatch)
    (h1 : frameRegexMatch f1 = some m1) (h2 : frameRegexMatch f2 = some m2)
    (hp : m1.pfx = m2.pfx) (he : m1.extension = m2.extension) :
    get_frame_sequences folder [(f1, false), (f2, false)] none "" =
      [(seqTemplate folder (frameSpecFor m1.frameStr.length) m1,
        [m1.frameStr, m2.frameStr])] := by
  have hext := frameRegexMatch_ext_ne f1 m1 h1
  have hx2 : (m1.extension == "") = false := by simp [hext]
  have step1 : processEntry none folder ([], "") (f1, false) =
      ([(m1.pfx ++ "." ++ m1.extension,
          ⟨seqTemplate folder (frameSpecFor m1.frameStr.length) m1, [m1.frameStr]⟩)],
        frameSpecFor m1.frameStr.length) := by
    simp [processEntry, h1, hx2, seqTemplate, extSkip]
  have step2 : processEntry none folder
      ([(m1.pfx ++ "." ++ m1.extension,
          ⟨seqTemplate folder (frameSpecFor m1.frameStr.length) m1, [m1.frameStr]⟩)],
        frameSpecFor m1.frameStr.length) (f2, false) =
      ([(m1.pfx ++ "." ++ m1.extension,
          ⟨seqTemplate folder (frameSpecFor m1.frameStr.length) m1,
            [m1.frameStr, m2.frameStr]⟩)],
        frameSpecFor m1.frameStr.length) := by
    simp [processEntry, h2, ← hp, ← he, updateAppend, List.lookup]
  unfold get_frame_sequences
  rw [List.foldl_cons, List.foldl_cons, List.foldl_nil, step1, step2]
  simp

/-- C6 amended witness: the two separator-variant files build one merged
group carrying both frame numbers. -/
theorem C6_amended_merged_groups_witness :
    get_frame_sequences "/seq" [("shot.0001.exr", false), ("shot_0001.exr", false)] none "" =
      [(seqTemplate "/seq"
          (frameSpecFor (FrameMatch.mk "shot" '.' "0001" "exr").frameStr.length)
          (FrameMatch.mk "shot" '.' "0001" "exr"),
        ["0001", "0001"])] :=
  C6_amended_merged_groups "/seq" "shot.0001.exr" "shot_0001.exr"
    (FrameMatch.mk "shot" '.' "0001" "exr") (FrameMatch.mk "shot" '_' "0001" "exr")
    (by decide) (by decide) rfl rfl

-- Concrete evaluations pinning the behaviour of the embedded primitives
-- against the semantics of the Python constructs they model.
example : pyMinString ["99", "100"] = some "100" := by decide
example : pyInt? "100" = some 100 := by decide
example : pyFormatInt "/seq/shot.%d.exr" 100 = some "/seq/shot.100.exr" := by decide
example : pyFormatInt "/seq/shot.%04d.exr" 7 = some "/seq/shot.0007.exr" := by decide
example : dirname "/seq/shot.%d.exr" = "/seq" := by decide
example : normalizeSeps "/seq/shot.100.exr" = "/seq/shot.100.exr" := by decide
example : frameRegexMatch "shot.0001.exr" = some ⟨"shot", '.', "0001", "exr"⟩ := by decide
example : frameRegexMatch "shot_0001.exr" = some ⟨"shot", '_', "0001", "exr"⟩ := by decide
example : frameRegexMatch "shot01.exr" = none := by decide
example : frameRegexMatch "a.12-34.exr" = some ⟨"a.12", '-', "34", "exr"⟩ := by decide
example : frameRegexMatch "0001.exr" = none := by decide
example : frameRegexMatch "shot.0001." = none := by decide
example : frameRegexMatch "archive.2.tar.gz" = none := by decide
example :
    get_frame_sequences "/path/to/the/folder"
      [("shot.0001.exr", false), ("shot.0002.exr", false), ("shot.0010.exr", false)] none "" =
      [("/path/to/the/folder/shot.%04d.exr", ["0001", "0002", "0010"])] := by decide
example :
    get_frame_sequences "/seq" [("a.0001.exr", false), ("b.02.jpg", false)] none "" =
      [("/seq/a.%04d.exr", ["0001"]), ("/seq/b.%04d.jpg", ["02"])] := by decide
